import Mathlib

/-!
Verification of the ReTurni API gateway core (src/services/shared/auth.py and
src/services/api-gateway/main.py) against its natural-language specification.

The Python code is shallowly embedded: each relevant function becomes a pure
Lean definition; the redis-backed stores become explicit values threaded
through the functions; wall-clock time becomes an explicit integer parameter
(seconds since the epoch, matching `int(datetime.utcnow().timestamp())`);
code that can raise returns `Except`.
-/

namespace ReTurni

/-! ## Rate limiter (auth.py, `RateLimiter.check_rate_limit`)

The redis sorted set `rate_limit:{key}` is modelled as a list of integer
scores.  The member stored by `zadd` is `str(current_time)` and its score is
`current_time`, so the member determines the score and the set is faithfully
a set of integer timestamps: adding an already-present timestamp is a no-op
on the cardinality, exactly as `ZADD` on an existing member only updates its
score.  `EXPIRE key window` only shortens the key's lifetime; it never
changes the value while the key lives, and every entry the key-level expiry
could drop is also dropped by the `ZREMRANGEBYSCORE` eviction of the next
call, so it is modelled as a no-op on the value.  An unreachable backing
store (redis raising `ConnectionError`) is modelled by the `none` store:
`check_rate_limit` has no try/except, so the error propagates (`Except.error`).
-/

/-- One `RateLimiter.check_rate_limit(key, limit, window)` call at time `now`
on the state of one key's sorted set.  Returns the admission verdict and the
new state, or an error when the backing store is unreachable.  Mirrors
auth.py lines 386-405: evict scores in `[0, now - window]`, count, reject if
`count >= limit` (no insert), otherwise insert member `str(now)` and accept. -/
def check_rate_limit (store : Option (List Int)) (limit : Nat) (window now : Int) :
    Except Unit (Bool × List Int) :=
  match store with
  | none => Except.error ()
  | some entries =>
    let windowStart := now - window
    let cleaned := entries.filter fun ts => !(decide (0 ≤ ts) && decide (ts ≤ windowStart))
    if limit ≤ cleaned.length then
      Except.ok (false, cleaned)
    else
      Except.ok (true, if cleaned.contains now then cleaned else now :: cleaned)

/-- Read-only half of the limiter (`RateLimiter.get_rate_limit_info`):
evict, count, and report `remaining = max 0 (limit - count)` and
`reset_time = now + window` without inserting (auth.py lines 407-424). -/
def get_rate_limit_info (entries : List Int) (limit : Nat) (window now : Int) :
    Int × Int :=
  let windowStart := now - window
  let cleaned := entries.filter fun ts => !(decide (0 ≤ ts) && decide (ts ≤ windowStart))
  (max 0 ((limit : Int) - cleaned.length), now + window)

/-! ## JWT tokens and their compact serialization

`TokenManager` (auth.py lines 137-217) signs HS256 JWTs with the PyJWT
library.  A compact JWT is `base64url(header_json) ++ "." ++
base64url(payload_json) ++ "." ++ signature`.  The header PyJWT emits for
HS256 with no extra headers is always the same JSON object, so the textual
head of every token this code ever mints is one fixed 36-character string.
We compute that string with a real (executable) base64url encoder applied to
the real header JSON, because `blacklist_token` keys its records on
`token[:16]` when the payload carries no `jti` claim.

A decoded token is modelled by its payload claims plus a `sigValid` flag
standing for "`jwt.decode` accepts the signature and structure", plus the
raw compact string (only its first 16 characters are ever inspected). -/

/-- Standard base64url alphabet, positions 0-63. -/
def b64Alphabet : List Char :=
  "ABCDEFGHIJKLMNOPQRSTUVWXYZabcdefghijklmnopqrstuvwxyz0123456789-_".data

/-- Character at position `n` of the base64url alphabet. -/
def b64Char (n : Nat) : Char := b64Alphabet.getD n 'A'

/-- Unpadded base64url encoding of a byte list, as PyJWT's
`base64url_encode` produces (padding stripped). -/
def base64urlEncode : List Nat → List Char
  | [] => []
  | [b0] => [b64Char (b0 / 4), b64Char (b0 % 4 * 16)]
  | [b0, b1] => [b64Char (b0 / 4), b64Char (b0 % 4 * 16 + b1 / 16), b64Char (b1 % 16 * 4)]
  | b0 :: b1 :: b2 :: rest =>
      b64Char (b0 / 4) :: b64Char (b0 % 4 * 16 + b1 / 16) ::
      b64Char (b1 % 16 * 4 + b2 / 64) :: b64Char (b2 % 64) :: base64urlEncode rest

/-- Base64url of an ASCII string's bytes. -/
def base64url (s : String) : String :=
  String.mk (base64urlEncode (s.data.map Char.toNat))

/-- The JSON header PyJWT serializes for algorithm HS256
(`\x7b"typ":"JWT","alg":"HS256"\x7d`, compact separators, insertion order). -/
def jwtHeaderJson : String := "\x7b\"typ\":\"JWT\",\"alg\":\"HS256\"\x7d"

/-- The fixed base64url-encoded header that starts every token the gateway
mints. -/
def jwtHeaderB64 : String := base64url jwtHeaderJson

/-- Payload claims of a decoded JWT, restricted to the claims the gateway
reads.  A claim absent from the dict is `none`; `payload.get(...)` on a
present claim yields `some`. -/
structure Payload where
  sub : Option String
  email : Option String
  role : Option String
  sessionId : Option String
  typ : Option String
  jti : Option String
  exp : Option Int
  iat : Option Int
deriving Repr, DecidableEq

/-- A presented bearer token: its decoded payload, whether `jwt.decode`
accepts its signature and structure, and its raw compact serialization. -/
structure Token where
  payload : Payload
  sigValid : Bool
  raw : String
deriving Repr, DecidableEq

/-- Failure modes of `jwt.decode`. -/
inductive JwtError
  | expired
  | invalid
deriving Repr, DecidableEq

/-- `jwt.decode(token, JWT_SECRET, algorithms=[...])`, optionally with
`options=\x7b"verify_exp": False\x7d`.  Signature/structure failure gives
`invalid`; with expiry verification on, an `exp` claim `≤ now` gives
`expired` (PyJWT raises when `exp <= now` at zero leeway); a missing `exp`
is not checked. -/
def decodeToken (verifyExp : Bool) (now : Int) (t : Token) : Except JwtError Payload :=
  if !t.sigValid then Except.error JwtError.invalid
  else if verifyExp then
    match t.payload.exp with
    | some e => if e ≤ now then Except.error JwtError.expired else Except.ok t.payload
    | none => Except.ok t.payload
  else Except.ok t.payload

/-! ## Redis key-value store with TTLs

Both the blacklist records and the sessions live in redis under string keys
written with `SETEX key ttl value`.  A store is modelled as an association
list from key to absolute expiry time; a key is live at `now` when a record
for it exists with `now < expiry`.  `SETEX` at `now` with ttl `d` installs
expiry `now + d`, replacing any previous record for the key. -/

/-- TTL'd key-value store: key paired with its absolute expiry second. -/
def Store := List (String × Int)

/-- `SETEX key ttl _` executed at `now`: record expiry `now + ttl`,
replacing any previous record under the key. -/
def storeSet (st : Store) (k : String) (expiry : Int) : Store :=
  (k, expiry) :: List.filter (fun p => p.1 != k) st

/-- `EXISTS key` at time `now`: a record for the key exists and has not yet
reached its expiry second. -/
def storeLive (st : Store) (k : String) (now : Int) : Bool :=
  List.any st fun p => p.1 == k && decide (now < p.2)

/-- Python truthiness of an `Optional[str]`: `None` and `""` are falsy. -/
def falsyStr : Option String → Bool
  | none => true
  | some s => s == ""

/-- Python string slice `token[:16]`, taken on the character list. -/
def tokenSlice16 (t : Token) : String := String.mk (t.raw.data.take 16)

/-- The blacklist key for a token: `payload.get("jti") or token[:16]`
(auth.py lines 195 and 214) — the `jti` claim when it is truthy, else the
first 16 characters of the compact serialization. -/
def tokenJtiKey (t : Token) : String :=
  match t.payload.jti with
  | some s => if s == "" then tokenSlice16 t else s
  | none => tokenSlice16 t

/-- `TokenManager.blacklist_token(token, expires_in)` at time `now`
(auth.py lines 190-206).  The initial `jwt.decode` verifies expiry, so an
expired or invalid token raises, the exception is caught and logged, and no
record is written.  Otherwise the remaining ttl `exp - now` guards the
`SETEX`; a token without `exp` is recorded for `expires_in or 3600`. -/
def blacklist_token (st : Store) (t : Token) (expiresIn : Option Int) (now : Int) : Store :=
  match decodeToken true now t with
  | Except.error _ => st
  | Except.ok p =>
    let key := "blacklist:" ++ tokenJtiKey t
    match p.exp with
    | some e =>
        let ttl := e - now
        if 0 < ttl then storeSet st key (now + ttl) else st
    | none => storeSet st key (now + expiresIn.getD 3600)

/-- `TokenManager.is_token_blacklisted(token)` at time `now` (auth.py lines
208-217): decode without expiry verification; any decode failure is caught
and reported as blacklisted; otherwise check `EXISTS blacklist:{jti}`. -/
def is_token_blacklisted (st : Store) (t : Token) (now : Int) : Bool :=
  match decodeToken false now t with
  | Except.error _ => true
  | Except.ok _ => storeLive st ("blacklist:" ++ tokenJtiKey t) now

/-! ## Token issuance

`create_access_token` / `create_refresh_token` (auth.py lines 140-171) copy
the caller's claim dict, stamp `exp`, `iat` and `type`, and sign.  The
claims the gateway's callers pass are modelled by `ClaimsData`; the
base64url payload segment and the signature differ per token and are never
inspected by any code under verification except through `token[:16]`, which
falls entirely inside the fixed 36-character header segment — they are
abstracted by the `encodedTail` argument standing for
`base64url(payload_json) ++ "." ++ signature`. -/

/-- Claims supplied by the caller of the token creators (the `data` dict),
restricted to the claims the gateway ever reads. -/
structure ClaimsData where
  sub : Option String
  email : Option String
  role : Option String
  sessionId : Option String
  jti : Option String
deriving Repr, DecidableEq

/-- `JWT_ACCESS_TOKEN_EXPIRE_MINUTES` default 30, in seconds. -/
def accessTokenLifetime : Int := 30 * 60

/-- `JWT_REFRESH_TOKEN_EXPIRE_DAYS` default 7, in seconds. -/
def refreshTokenLifetime : Int := 7 * 24 * 60 * 60

/-- `TokenManager.create_access_token(data, expires_delta)` at `now`:
payload is the data plus `exp = now + delta` (default 30 min), `iat = now`,
`type = "access"`; the compact serialization starts with the fixed header
segment. -/
def create_access_token (data : ClaimsData) (expiresDelta : Option Int) (now : Int)
    (encodedTail : String) : Token :=
  { payload :=
      { sub := data.sub, email := data.email, role := data.role,
        sessionId := data.sessionId, typ := some "access", jti := data.jti,
        exp := some (now + expiresDelta.getD accessTokenLifetime), iat := some now }
    sigValid := true
    raw := jwtHeaderB64 ++ "." ++ encodedTail }

/-- `TokenManager.create_refresh_token(data)` at `now`: like the access
creator but `type = "refresh"` and a fixed 7-day lifetime. -/
def create_refresh_token (data : ClaimsData) (now : Int) (encodedTail : String) : Token :=
  { payload :=
      { sub := data.sub, email := data.email, role := data.role,
        sessionId := data.sessionId, typ := some "refresh", jti := data.jti,
        exp := some (now + refreshTokenLifetime), iat := some now }
    sigValid := true
    raw := jwtHeaderB64 ++ "." ++ encodedTail }

/-! ## Role table, sessions, and the auth resolver -/

/-- `ROLE_PERMISSIONS.get(role, [])` (auth.py lines 77-109): the static
role→permission table; an unknown role maps to the empty list. -/
def rolePermissions (role : String) : List String :=
  if role == "admin" then
    ["tournament:create", "tournament:update", "tournament:delete",
     "tournament:view", "tournament:deploy", "tournament:pause",
     "team:approve", "team:reject", "team:view",
     "team:update", "team:delete",
     "match:schedule", "match:update", "match:submit_result",
     "match:approve_result", "match:reject_result",
     "system:view_audit", "system:manage_users", "system:config",
     "system:metrics"]
  else if role == "tournament_manager" then
    ["tournament:create", "tournament:update", "tournament:view",
     "tournament:deploy", "tournament:pause",
     "team:approve", "team:reject", "team:view",
     "match:schedule", "match:update",
     "match:approve_result", "match:reject_result",
     "system:view_audit"]
  else if role == "referee" then
    ["tournament:view", "team:view", "match:submit_result", "match:update"]
  else if role == "team_captain" then
    ["tournament:view", "team:view", "team:update"]
  else if role == "player" then
    ["tournament:view", "team:view"]
  else if role == "viewer" then
    ["tournament:view"]
  else []

/-- Session record as `get_current_user` reads it: the `user_id` field of
the JSON dict stored under `session:{id}` (absent when the stored dict has
no such field).  The touch-and-extend `get_session` performs on read
changes `last_activity` and the TTL, not the value the caller sees, and is
orthogonal to every claim settled here. -/
structure SessionData where
  userId : Option String
deriving Repr, DecidableEq

/-- The authenticated user `get_current_user` constructs (auth.py lines
112-134, 326-333).  The `extra_data` kwargs replicate leftover claims and
are read by nothing under verification, so they are omitted. -/
structure AuthUser where
  user_id : String
  email : String
  role : String
  permissions : List String
  session_id : Option String
deriving Repr, DecidableEq

/-- The distinct `HTTPException(401)` reasons `get_current_user` raises. -/
inductive AuthFailure
  | revoked
  | expired
  | invalidToken
  | invalidType
  | invalidPayload
  | invalidSession
deriving Repr, DecidableEq

/-- What can escape `get_current_user`: an auth `HTTPException`, or a
session-store exception (`redis_client.get` inside
`SessionManager.get_session` has no handler on this path). -/
inductive GatewayError
  | http (f : AuthFailure)
  | store
deriving Repr, DecidableEq

/-- `get_current_user(credentials)` (auth.py lines 281-333) at time `now`,
over the blacklist store `bl` and the session lookup `sessions` (which maps
a session id to its record, or fails when the session store is
unreachable).  Checks, in source order: blacklist, signature/expiry, token
type, truthy `sub`/`email`/`role`, role→permission lookup, and — only when
the payload carries a truthy `session_id` — the session binding. -/
def get_current_user (bl : Store) (sessions : String → Except Unit (Option SessionData))
    (t : Token) (now : Int) : Except GatewayError AuthUser :=
  if is_token_blacklisted bl t now then Except.error (GatewayError.http AuthFailure.revoked)
  else
    match decodeToken true now t with
    | Except.error JwtError.expired => Except.error (GatewayError.http AuthFailure.expired)
    | Except.error JwtError.invalid => Except.error (GatewayError.http AuthFailure.invalidToken)
    | Except.ok p =>
      if p.typ != some "access" then Except.error (GatewayError.http AuthFailure.invalidType)
      else if falsyStr p.sub || falsyStr p.email || falsyStr p.role then
        Except.error (GatewayError.http AuthFailure.invalidPayload)
      else
        let userId := p.sub.getD ""
        let permissions := rolePermissions (p.role.getD "")
        if !falsyStr p.sessionId then
          match sessions (p.sessionId.getD "") with
          | Except.error () => Except.error GatewayError.store
          | Except.ok none => Except.error (GatewayError.http AuthFailure.invalidSession)
          | Except.ok (some d) =>
            if d.userId != some userId then
              Except.error (GatewayError.http AuthFailure.invalidSession)
            else
              Except.ok { user_id := userId, email := p.email.getD "", role := p.role.getD "",
                          permissions := permissions, session_id := p.sessionId }
        else
          Except.ok { user_id := userId, email := p.email.getD "", role := p.role.getD "",
                      permissions := permissions, session_id := p.sessionId }

/-- `get_optional_user(credentials)` (auth.py lines 372-380): `None` when no
credential is presented; otherwise run `get_current_user` and turn an
`HTTPException` into `None`.  A non-`HTTPException` (the session-store
failure) is not caught and propagates. -/
def get_optional_user (bl : Store) (sessions : String → Except Unit (Option SessionData))
    (cred : Option Token) (now : Int) : Except GatewayError (Option AuthUser) :=
  match cred with
  | none => Except.ok none
  | some t =>
    match get_current_user bl sessions t now with
    | Except.ok u => Except.ok (some u)
    | Except.error (GatewayError.http _) => Except.ok none
    | Except.error GatewayError.store => Except.error GatewayError.store

/-- Collapse a resolver outcome to the granularity the spec states:
every rejection is `Unauthorized` (modelled as `Except.error ()`). -/
def authOutcome (r : Except GatewayError AuthUser) : Except Unit AuthUser :=
  r.mapError fun _ => ()

/-- The Auth Resolver algorithm exactly as §4.4 of the spec words it, for a
presented credential: (2) reject if a live revocation record exists for the
token's id; (3) verify signature/expiry, reject on failure; (4) reject if
the kind is not `access`; (5) extract `subject_id`, `email`, `role`, reject
if any is absent; (6) permissions from the static role table, unknown role
⇒ empty set; (7) if the token carries a `session_id`, fetch the session and
reject if absent or bound to a different subject.  Every rejection is
`Unauthorized`.  The revocation key and the role table are the ones the
code uses, shared so the two cascades are comparable. -/
def resolve_required_spec (bl : Store) (sessions : String → Option SessionData)
    (t : Token) (now : Int) : Except Unit AuthUser :=
  if storeLive bl ("blacklist:" ++ tokenJtiKey t) now then Except.error ()
  else
    match decodeToken true now t with
    | Except.error _ => Except.error ()
    | Except.ok p =>
      if p.typ != some "access" then Except.error ()
      else
        match p.sub, p.email, p.role with
        | some subjectId, some email, some role =>
          let perms := rolePermissions role
          match p.sessionId with
          | some sid =>
            match sessions sid with
            | none => Except.error ()
            | some d =>
              if d.userId != some subjectId then Except.error ()
              else Except.ok { user_id := subjectId, email := email, role := role,
                               permissions := perms, session_id := some sid }
          | none =>
            Except.ok { user_id := subjectId, email := email, role := role,
                        permissions := perms, session_id := none }
        | _, _, _ => Except.error ()

/-! ## Service router header handling (api-gateway/main.py, `proxy_to_service`)

Header collections are modelled as association lists.  `dict(request.headers)`
iterates a Starlette `Headers` object, which yields lowercase names;
building a dict keeps the last value per name.  The code then assigns the
identity and correlation headers and pops the hop-by-hop names, and on the
way back constructs the relayed response from the downstream status code
and `dict(response.headers)` with no stripping. -/

/-- Dict-style assignment `headers[k] = v`: replace the value under an
existing key, else append the pair. -/
def setHeader (k v : String) (hs : List (String × String)) : List (String × String) :=
  if hs.any (fun p => p.1 == k) then
    hs.map fun p => if p.1 == k then (k, v) else p
  else hs ++ [(k, v)]

/-- `headers.pop(k, None)`: drop every pair under the key. -/
def popHeader (k : String) (hs : List (String × String)) : List (String × String) :=
  hs.filter fun p => p.1 != k

/-- ASCII lowercasing of one character, as the framework's header objects
apply to header names. -/
def lowerChar (c : Char) : Char :=
  if 65 ≤ c.toNat ∧ c.toNat ≤ 90 then Char.ofNat (c.toNat + 32) else c

/-- ASCII lowercasing of a header name. -/
def lowerName (s : String) : String := String.mk (s.data.map lowerChar)

/-- `dict(request.headers)` over a raw header list: names are lowercased by
the framework's header object and the last value per name wins. -/
def dictHeaders (hs : List (String × String)) : List (String × String) :=
  hs.foldl (fun acc p => setHeader (lowerName p.1) p.2 acc) []

/-- The hop-by-hop header names stripped from the forwarded request
(main.py lines 196-197). -/
def hopByHopHeaders : List String :=
  ["connection", "keep-alive", "proxy-authenticate",
   "proxy-authorization", "te", "trailers", "transfer-encoding", "upgrade"]

/-- The header set `proxy_to_service` sends downstream (main.py lines
185-199): the request's headers as a dict, the identity headers when a user
is present, `X-Request-ID` and `X-Forwarded-For` unconditionally, then the
hop-by-hop names popped. -/
def buildForwardHeaders (reqHeaders : List (String × String)) (user : Option AuthUser)
    (requestId clientHost : String) : List (String × String) :=
  let h0 := dictHeaders reqHeaders
  let h1 := match user with
    | some u => setHeader "X-User-Role" u.role
        (setHeader "X-User-Email" u.email (setHeader "X-User-ID" u.user_id h0))
    | none => h0
  let h2 := setHeader "X-Forwarded-For" clientHost (setHeader "X-Request-ID" requestId h1)
  hopByHopHeaders.foldl (fun hs k => popHeader k hs) h2

/-- A downstream service response as the proxy sees it: status code and raw
headers. -/
structure DownstreamResponse where
  statusCode : Nat
  headers : List (String × String)
deriving Repr, DecidableEq

/-- The status code and header set of the response `proxy_to_service` relays
back on success (main.py lines 224-228): the downstream status code and
`dict(response.headers)`, passed to the outgoing `JSONResponse` with no
further filtering. -/
def relayResponse (ds : DownstreamResponse) : Nat × List (String × String) :=
  (ds.statusCode, dictHeaders ds.headers)

/-! ## Request pipeline middleware (api-gateway/main.py, `request_middleware`)

The middleware hardcodes `rate_limit = 100`, `window = 60`.  The rate-limit
stage runs before (outside) the `try` block, so a store exception raised
there escapes the middleware (`Except.error ()` — the framework, not this
code, then answers).  A rejection builds the 429 `JSONResponse` whose only
headers are the two rate-limit headers and whose body carries the request
id.  On admission, `call_next` either returns a response — which gets the
`X-Request-ID` and `X-API-Version` headers added — or raises, which the
`except` turns into a bare 500 `JSONResponse` whose body carries the
request id. -/

/-- Gateway version constant (`VERSION = "1.0.0"`). -/
def apiVersion : String := "1.0.0"

/-- A response at the middleware boundary: status, headers, and the
correlation id its JSON body carries, if any. -/
structure GatewayResponse where
  statusCode : Nat
  headers : List (String × String)
  bodyRequestId : Option String
deriving Repr, DecidableEq

/-- Outcome of `call_next(request)`: the inner app's response, or a raised
exception. -/
inductive NextOutcome
  | success (r : GatewayResponse)
  | raised
deriving Repr, DecidableEq

/-- The 429 `JSONResponse` built on rate-limit rejection (main.py lines
110-125): rate-limit info headers only; the request id travels in the body. -/
def rateLimitRejectionResponse (requestId : String) (remaining resetTime : Int) :
    GatewayResponse :=
  { statusCode := 429
    headers := [("X-Rate-Limit-Remaining", toString remaining),
                ("X-Rate-Limit-Reset", toString resetTime)]
    bodyRequestId := some requestId }

/-- The two header assignments the middleware performs on a successful
inner response (main.py lines 138-139): `X-Request-ID`, then
`X-API-Version`. -/
def addTrackingHeaders (requestId : String) (r : GatewayResponse) : GatewayResponse :=
  { r with headers := setHeader "X-API-Version" apiVersion (setHeader "X-Request-ID" requestId r.headers) }

/-- `request_middleware` (main.py lines 90-171) at time `now` for the key's
rate-limit state `store` (`none` = backing store unreachable) and inner
outcome `next`.  `Except.error ()` models an exception escaping the
middleware itself. -/
def request_middleware (store : Option (List Int)) (requestId : String) (now : Int)
    (next : NextOutcome) : Except Unit GatewayResponse :=
  match check_rate_limit store 100 60 now with
  | Except.error () => Except.error ()
  | Except.ok (false, cleaned) =>
      let info := get_rate_limit_info cleaned 100 60 now
      Except.ok (rateLimitRejectionResponse requestId info.1 info.2)
  | Except.ok (true, _) =>
      match next with
      | NextOutcome.success r => Except.ok (addTrackingHeaders requestId r)
      | NextOutcome.raised =>
          Except.ok { statusCode := 500, headers := [], bodyRequestId := some requestId }

/-! ## Interleaving model of concurrent admission (for the atomicity claim)

`check_rate_limit` issues its store commands separately: `ZREMRANGEBYSCORE`
(evict), `ZCARD` (count), then — only on admission — `ZADD`.  Two
concurrent calls on the same key are modelled as two three-step programs
over the shared entry list; a schedule says which call performs its next
primitive command. -/

/-- Program counter of one in-flight `check_rate_limit` call. -/
inductive RLPc
  | start
  | evicted
  | counted (k : Nat)
  | done (admitted : Bool)
deriving Repr, DecidableEq

/-- One primitive store command of a call at `now`: evict, count, or
compare-and-insert. -/
def rlPrim (limit : Nat) (window now : Int) : RLPc × List Int → RLPc × List Int
  | (RLPc.start, s) =>
      (RLPc.evicted, s.filter fun ts => !(decide (0 ≤ ts) && decide (ts ≤ now - window)))
  | (RLPc.evicted, s) => (RLPc.counted s.length, s)
  | (RLPc.counted k, s) =>
      if limit ≤ k then (RLPc.done false, s)
      else (RLPc.done true, if s.contains now then s else now :: s)
  | (RLPc.done b, s) => (RLPc.done b, s)

/-- Run two concurrent calls under a schedule: `true` steps the first call,
`false` the second. -/
def rlRun (limit : Nat) (window now : Int) :
    List Bool → RLPc × RLPc × List Int → RLPc × RLPc × List Int
  | [], st => st
  | c :: cs, (p, q, s) =>
    if c then
      let r := rlPrim limit window now (p, s)
      rlRun limit window now cs (r.1, q, r.2)
    else
      let r := rlPrim limit window now (q, s)
      rlRun limit window now cs (p, r.1, r.2)

/-! ## Concrete fixtures used by witnesses and counterexamples -/

/-- Stand-in for a token's base64url payload segment plus signature. -/
def fixtureTail : String := "cGF5bG9hZA.c2ln"

/-- A structurally valid access token without a session binding:
subject `u1`, role `viewer`, expiry at second 100. -/
def fixtureToken : Token :=
  { payload :=
      { sub := some "u1", email := some "u1@example.com", role := some "viewer",
        sessionId := none, typ := some "access", jti := none,
        exp := some 100, iat := some 0 }
    sigValid := true
    raw := jwtHeaderB64 ++ "." ++ fixtureTail }

/-- Like `fixtureToken` but carrying session id `s1`. -/
def fixtureSessionToken : Token :=
  { payload :=
      { sub := some "u1", email := some "u1@example.com", role := some "viewer",
        sessionId := some "s1", typ := some "access", jti := none,
        exp := some 100, iat := some 0 }
    sigValid := true
    raw := jwtHeaderB64 ++ "." ++ fixtureTail }

/-- An access token that expired at second 10. -/
def fixtureExpiredToken : Token :=
  { payload :=
      { sub := some "u1", email := some "u1@example.com", role := some "viewer",
        sessionId := none, typ := some "access", jti := none,
        exp := some 10, iat := some 0 }
    sigValid := true
    raw := jwtHeaderB64 ++ "." ++ fixtureTail }

/-- Claim dict the gateway's `/auth/login` passes to the token creators
(no `jti`). -/
def fixtureClaims : ClaimsData :=
  { sub := some "admin-user-id", email := some "admin@tournament.com",
    role := some "admin", sessionId := none, jti := none }

/-- A second, distinct claim dict (no `jti`). -/
def fixtureClaimsB : ClaimsData :=
  { sub := some "other-user", email := some "other@example.com",
    role := some "viewer", sessionId := none, jti := none }

/-- A session-lookup function for a store holding no sessions at all. -/
def noSessions : String → Except Unit (Option SessionData) := fun _ => Except.ok none

/-- A session-lookup function modelling an unreachable session store:
every `redis_client.get` raises. -/
def failingSessions : String → Except Unit (Option SessionData) := fun _ => Except.error ()

/-- A plain downstream 200 response used by pipeline fixtures. -/
def fixtureInnerResponse : GatewayResponse :=
  { statusCode := 200, headers := [("content-type", "application/json")], bodyRequestId := none }

/-! ## Helper lemmas -/

/-- A record freshly written by `storeSet` is live at any instant before its
expiry. -/
theorem storeLive_storeSet_self (st : Store) (k : String) (e now : Int) (h : now < e) :
    storeLive (storeSet st k e) k now = true := by
  simp [storeLive, storeSet, h]

/-- Popping one header name never adds pairs. -/
theorem mem_of_mem_popHeader {k' : String} {p : String × String}
    {hs : List (String × String)} (h : p ∈ popHeader k' hs) : p ∈ hs :=
  List.mem_of_mem_filter h

/-- After popping a name, no pair under that name remains. -/
theorem not_mem_popHeader_self (k v : String) (hs : List (String × String)) :
    (k, v) ∉ popHeader k hs := by
  intro h
  have := List.of_mem_filter h
  simp at this

/-- Folding pops over a name list never adds pairs. -/
theorem mem_of_mem_foldl_popHeader (ks : List String) {p : String × String} :
    ∀ {hs : List (String × String)},
      p ∈ ks.foldl (fun a b => popHeader b a) hs → p ∈ hs := by
  induction ks with
  | nil => intro hs h; exact h
  | cons k rest ih =>
    intro hs h
    exact mem_of_mem_popHeader (ih h)

/-- After folding pops over a name list, no pair under any popped name
remains. -/
theorem not_mem_foldl_popHeader (ks : List String) (k v : String) (hk : k ∈ ks) :
    ∀ hs : List (String × String), (k, v) ∉ ks.foldl (fun a b => popHeader b a) hs := by
  induction ks with
  | nil => cases hk
  | cons k' rest ih =>
    intro hs h
    rcases List.mem_cons.mp hk with heq | htail
    · subst heq
      exact not_mem_popHeader_self k v hs (mem_of_mem_foldl_popHeader rest h)
    · exact ih htail (popHeader k' hs) h

/-- Dict assignment makes the assigned pair a member. -/
theorem mem_setHeader_self (k v : String) (hs : List (String × String)) :
    (k, v) ∈ setHeader k v hs := by
  unfold setHeader
  split
  · rename_i hany
    rcases List.any_eq_true.mp hany with ⟨p, hp, hpk⟩
    exact List.mem_map.mpr ⟨p, hp, by simp [hpk]⟩
  · exact List.mem_append_right _ (List.mem_singleton.mpr rfl)

/-- Dict assignment under a different name preserves membership. -/
theorem mem_setHeader_of_ne (k v k' v' : String) (hs : List (String × String))
    (hne : k' ≠ k) (h : (k', v') ∈ hs) : (k', v') ∈ setHeader k v hs := by
  unfold setHeader
  split
  · refine List.mem_map.mpr ⟨(k', v'), h, ?_⟩
    simp [hne]
  · exact List.mem_append_left _ h

/-! ## Claim theorems -/

/-- C1: the sliding-window limiter does not enforce its limit for
same-second traffic.  With `limit = 2`, `window = 60` and a fresh key, a
call at second 1000 accepts and records the entry `1000`; a second call at
second 1000 accepts but — because the sorted-set member is `str(now)` — its
insert is a no-op and the state is still `[1000]`; hence a third call at
second 1000 finds one entry, which is below the limit, and accepts, where
the claim (and the spec's scenario `[true, true, false]`) requires a
rejection after `limit` accepting calls.  The final conjunct shows the
limit does bind once the accepted entries carry distinct seconds, pinning
the divergence on the member collision. -/
theorem c1_same_second_collision :
    check_rate_limit (some []) 2 60 1000 = Except.ok (true, [1000]) ∧
    check_rate_limit (some [1000]) 2 60 1000 = Except.ok (true, [1000]) ∧
    check_rate_limit (some [1000, 999]) 2 60 1000 = Except.ok (false, [1000, 999]) := by
  refine ⟨rfl, rfl, rfl⟩

/-- C8 (counterexample): with the rate-limit backing store unreachable, the
middleware does not admit the request — `check_rate_limit` raises, the
rate-limit stage sits outside the middleware's `try`, and the exception
escapes; the inner application is never reached even when it would have
answered 200. -/
theorem c8_store_outage_not_admitted :
    request_middleware none "req-1" 1000 (NextOutcome.success fixtureInnerResponse) =
      Except.error () := rfl

/-- C8 (amended): when the backing store is unreachable the limiter raises
and the middleware propagates the exception for every request — the
pipeline neither fails open (admitting) nor fails closed (answering 429);
no degradation policy or logging exists on this path. -/
theorem c8_amended_store_outage_propagates (requestId : String) (now : Int)
    (next : NextOutcome) :
    request_middleware none requestId now next = Except.error () := rfl

/-- C10 (counterexample): the evict/count/insert steps are not atomic.  Two
concurrent calls with `limit = 1` at second 1000 on a fresh key, scheduled
as A-evict, A-count, B-evict, B-count, A-insert, B-insert, are both
admitted — each counted the entry set before the other's insert — while
under either serial order exactly one call is admitted.  No interleaving of
atomic calls could produce the both-admitted outcome. -/
theorem c10_nonatomic_interleaving :
    rlRun 1 60 1000 [true, true, false, false, true, false]
        (RLPc.start, RLPc.start, []) =
      (RLPc.done true, RLPc.done true, [1000]) ∧
    rlRun 1 60 1000 [true, true, true, false, false, false]
        (RLPc.start, RLPc.start, []) =
      (RLPc.done true, RLPc.done false, [1000]) ∧
    rlRun 1 60 1000 [false, false, false, true, true, true]
        (RLPc.start, RLPc.start, []) =
      (RLPc.done false, RLPc.done true, [1000]) := by
  refine ⟨rfl, rfl, rfl⟩

/-- C10 (amended): because the admission steps are separate store commands,
there exists an interleaving of two concurrent calls sharing a key under
which both observe the pre-insert entry set and both are admitted with
`limit = 1` — the bounded over-admission §5 of the spec tolerates, not the
atomicity §4.1 asserts. -/
theorem c10_amended_interleaving_overadmits :
    ∃ sched : List Bool,
      rlRun 1 60 1000 sched (RLPc.start, RLPc.start, []) =
        (RLPc.done true, RLPc.done true, [1000]) :=
  ⟨[true, true, false, false, true, false], rfl⟩

/-- C7 (counterexample): optional auth resolution can fail.  For a
structurally valid unexpired token carrying session id `s1`, with an
unreachable session store, `get_current_user` raises the store error and
`get_optional_user` — which catches only `HTTPException` — propagates it
instead of resolving to no-principal. -/
theorem c7_session_store_failure_escapes :
    get_optional_user [] failingSessions (some fixtureSessionToken) 50 =
      Except.error GatewayError.store := rfl

/-- C9 (counterexample): the 500 fallback response carries neither the
correlation id nor the API version as headers — its header list is empty
(the correlation id travels only in the JSON body). -/
theorem c9_fallback_missing_headers :
    request_middleware (some []) "req-1" 1000 NextOutcome.raised =
      Except.ok { statusCode := 500, headers := [], bodyRequestId := some "req-1" } ∧
    ((request_middleware (some []) "req-1" 1000 NextOutcome.raised).toOption.map
        (fun r => r.headers.any fun p => p.1 == "X-Request-ID" || p.1 == "X-API-Version")) =
      some false := by
  refine ⟨rfl, rfl⟩

/-- C5 (counterexample): the response relayed back by `proxy_to_service`
keeps hop-by-hop headers.  A downstream response carrying
`connection: keep-alive` is relayed with that header still present, because
the return path passes `dict(response.headers)` through unfiltered. -/
theorem c5_response_keeps_hop_by_hop :
    ("connection", "keep-alive") ∈
      (relayResponse
        { statusCode := 200,
          headers := [("connection", "keep-alive"), ("content-type", "application/json")] }).2 := by
  decide

/-- Taking 16 characters off the fixed 36-character base64url header
segment never reaches whatever follows it. -/
theorem take16_header_data (l : List Char) :
    List.take 16 (jwtHeaderB64.data ++ l) = "eyJ0eXAiOiJKV1Qi".data := by
  rw [List.take_append_of_le_length (by decide)]
  decide

/-- The first 16 characters of every compact token the gateway mints are the
head of the fixed base64url header segment, whatever the payload and
signature segments are. -/
theorem take16_of_minted_raw (tail : String) :
    (jwtHeaderB64 ++ "." ++ tail).data.take 16 = "eyJ0eXAiOiJKV1Qi".data := by
  have h : (jwtHeaderB64 ++ "." ++ tail).data = jwtHeaderB64.data ++ ('.' :: tail.data) := by
    rw [String.data_append, String.data_append]
    rfl
  rw [h, take16_header_data]

/-- C2: blacklisting a token with a future expiry makes every subsequent
resolution of it fail with 401 (`Token has been revoked`) at any instant
before its natural expiry — even though `jwt.decode` with expiry
verification alone would accept the token at that instant — and
blacklisting a token whose expiry has already passed writes no record at
all. -/
theorem c2_blacklist_until_expiry (bl : Store)
    (sessions : String → Except Unit (Option SessionData))
    (t : Token) (now tm e : Int)
    (hsig : t.sigValid = true) (hexp : t.payload.exp = some e) :
    (now < e → tm < e →
      decodeToken true tm t = Except.ok t.payload ∧
      get_current_user (blacklist_token bl t none now) sessions t tm =
        Except.error (GatewayError.http AuthFailure.revoked)) ∧
    (e ≤ now → blacklist_token bl t none now = bl) := by
  constructor
  · intro h1 h2
    have hdec : decodeToken true tm t = Except.ok t.payload := by
      simp [decodeToken, hsig, hexp, not_le.mpr h2]
    refine ⟨hdec, ?_⟩
    have hblt : blacklist_token bl t none now =
        storeSet bl ("blacklist:" ++ tokenJtiKey t) e := by
      have harith : now + (e - now) = e := by ring
      simp [blacklist_token, decodeToken, hsig, hexp, not_le.mpr h1, harith,
        sub_pos.mpr h1]
    have hbl : is_token_blacklisted
        (storeSet bl ("blacklist:" ++ tokenJtiKey t) e) t tm = true := by
      simp [is_token_blacklisted, decodeToken, hsig]
      exact storeLive_storeSet_self bl _ e tm h2
    simp [get_current_user, hblt, hbl]
  · intro h
    simp [blacklist_token, decodeToken, hsig, hexp, h]

/-- C2 witness: blacklisting the fixture token (expiry 100) at second 50
makes resolution at second 70 fail as revoked; its signature/expiry checks
alone still pass at 70. -/
theorem c2_blacklist_until_expiry_witness :
    fixtureToken.sigValid = true ∧ fixtureToken.payload.exp = some 100 ∧
    ((50 : Int) < 100 ∧ (70 : Int) < 100) ∧
    (decodeToken true 70 fixtureToken = Except.ok fixtureToken.payload ∧
      get_current_user (blacklist_token [] fixtureToken none 50) noSessions fixtureToken 70 =
        Except.error (GatewayError.http AuthFailure.revoked)) :=
  ⟨rfl, rfl, ⟨by decide, by decide⟩,
    (c2_blacklist_until_expiry [] noSessions fixtureToken 50 70 100 rfl rfl).1
      (by decide) (by decide)⟩

/-- C4: the gateway's token creators stamp no `jti`, so revocation falls
back to `token[:16]`, which is inside the fixed base64url header shared by
every minted token.  Blacklisting one freshly minted access token therefore
blacklists every other minted token (access or refresh) for as long as the
record's TTL — revocation is not confined to the revoked token. -/
theorem c4_prefix_blacklist_collision
    (dA dB : ClaimsData) (eA eB : Option Int) (nA nB nBl tm : Int)
    (tailA tailB : String) (bl : Store) (B : Token)
    (hjA : dA.jti = none) (hjB : dB.jti = none)
    (hB : B = create_access_token dB eB nB tailB ∨ B = create_refresh_token dB nB tailB)
    (hlive : nBl < nA + eA.getD accessTokenLifetime)
    (htm : tm < nA + eA.getD accessTokenLifetime) :
    is_token_blacklisted
      (blacklist_token bl (create_access_token dA eA nA tailA) none nBl) B tm = true := by
  have hkeyA : tokenJtiKey (create_access_token dA eA nA tailA) = "eyJ0eXAiOiJKV1Qi" := by
    simp only [tokenJtiKey, create_access_token, hjA, tokenSlice16]
    rw [take16_of_minted_raw]
  have hkeyB : tokenJtiKey B = "eyJ0eXAiOiJKV1Qi" := by
    rcases hB with hB | hB <;> subst hB <;>
      simp only [tokenJtiKey, create_access_token, create_refresh_token, hjB, tokenSlice16] <;>
      rw [take16_of_minted_raw]
  have hsigB : B.sigValid = true := by
    rcases hB with hB | hB <;> subst hB <;> rfl
  have hA1 : (create_access_token dA eA nA tailA).sigValid = true := rfl
  have hA2 : (create_access_token dA eA nA tailA).payload.exp =
      some (nA + eA.getD accessTokenLifetime) := rfl
  have hblt : blacklist_token bl (create_access_token dA eA nA tailA) none nBl =
      storeSet bl "blacklist:eyJ0eXAiOiJKV1Qi" (nA + eA.getD accessTokenLifetime) := by
    have harith : nBl + (nA + eA.getD accessTokenLifetime - nBl) =
        nA + eA.getD accessTokenLifetime := by ring
    simp [blacklist_token, decodeToken, hA1, hA2, not_le.mpr hlive, hkeyA,
      harith, sub_pos.mpr hlive]
  rw [hblt]
  simp [is_token_blacklisted, decodeToken, hsigB, hkeyB]
  exact storeLive_storeSet_self bl _ _ tm htm

/-- C4 witness: blacklisting an access token minted for the admin login at
second 0 (default 30-minute lifetime) at second 10 makes a refresh token
minted for a different user read as blacklisted at second 100. -/
theorem c4_prefix_blacklist_collision_witness :
    fixtureClaims.jti = none ∧ fixtureClaimsB.jti = none ∧
    is_token_blacklisted
      (blacklist_token [] (create_access_token fixtureClaims none 0 fixtureTail) none 10)
      (create_refresh_token fixtureClaimsB 0 "b64payload.b64sig") 100 = true :=
  ⟨rfl, rfl,
    c4_prefix_blacklist_collision fixtureClaims fixtureClaimsB none none 0 0 10 100
      fixtureTail "b64payload.b64sig" [] _ rfl rfl (Or.inr rfl) (by decide) (by decide)⟩

/-- C6: a structurally valid, unexpired, unrevoked access token that carries
a session id is rejected with 401 (`Invalid session`) when the session
store holds no record under that id or holds one bound to a different
user id. -/
theorem c6_stale_session_rejected (bl : Store)
    (sessions : String → Except Unit (Option SessionData))
    (t : Token) (now e : Int) (sid subjectId emailV roleV : String)
    (hsig : t.sigValid = true)
    (hexp : t.payload.exp = some e) (hfresh : now < e)
    (hnb : storeLive bl ("blacklist:" ++ tokenJtiKey t) now = false)
    (htyp : t.payload.typ = some "access")
    (hsub : t.payload.sub = some subjectId) (hsub' : subjectId ≠ "")
    (hemail : t.payload.email = some emailV) (hemail' : emailV ≠ "")
    (hrole : t.payload.role = some roleV) (hrole' : roleV ≠ "")
    (hsid : t.payload.sessionId = some sid) (hsid' : sid ≠ "")
    (hlook : sessions sid = Except.ok none ∨
      ∃ d, sessions sid = Except.ok (some d) ∧ d.userId ≠ some subjectId) :
    get_current_user bl sessions t now =
      Except.error (GatewayError.http AuthFailure.invalidSession) := by
  have hbl : is_token_blacklisted bl t now = false := by
    simp [is_token_blacklisted, decodeToken, hsig, hnb]
  have hdec : decodeToken true now t = Except.ok t.payload := by
    simp [decodeToken, hsig, hexp, not_le.mpr hfresh]
  rcases hlook with hnone | ⟨d, hd, hne⟩
  · simp [get_current_user, hbl, hdec, htyp, falsyStr, hsub, hemail, hrole, hsid,
      hsub', hemail', hrole', hsid', hnone]
  · simp [get_current_user, hbl, hdec, htyp, falsyStr, hsub, hemail, hrole, hsid,
      hsub', hemail', hrole', hsid', hd, hne]

/-- C6 witness: the fixture session token (session id `s1`, expiry 100) is
rejected at second 50 when the session store holds no sessions. -/
theorem c6_stale_session_rejected_witness :
    fixtureSessionToken.sigValid = true ∧
    fixtureSessionToken.payload.sessionId = some "s1" ∧
    noSessions "s1" = Except.ok none ∧
    get_current_user [] noSessions fixtureSessionToken 50 =
      Except.error (GatewayError.http AuthFailure.invalidSession) :=
  ⟨rfl, rfl, rfl,
    c6_stale_session_rejected [] noSessions fixtureSessionToken 50 100 "s1" "u1"
      "u1@example.com" "viewer" rfl rfl (by decide) rfl rfl rfl (by decide) rfl
      (by decide) rfl (by decide) rfl (by decide) (Or.inl rfl)⟩

/-- C5 (amended): hop-by-hop headers never appear in the forwarded request's
header set, and the relayed response keeps the downstream status code and
its entire header dict verbatim — hop-by-hop headers included, nothing is
stripped on the way back. -/
theorem c5_amended_forward_strips_response_verbatim
    (reqHeaders : List (String × String)) (user : Option AuthUser)
    (requestId clientHost : String) (k v : String) (ds : DownstreamResponse) :
    (k ∈ hopByHopHeaders →
      (k, v) ∉ buildForwardHeaders reqHeaders user requestId clientHost) ∧
    (relayResponse ds).1 = ds.statusCode ∧
    ∀ p, p ∈ dictHeaders ds.headers → p ∈ (relayResponse ds).2 := by
  refine ⟨fun hk => ?_, rfl, fun p hp => hp⟩
  unfold buildForwardHeaders
  exact not_mem_foldl_popHeader _ k v hk _

/-- C5 amended witness: `connection` is hop-by-hop, and a request that
presents `Connection: close` is forwarded without any `connection` pair. -/
theorem c5_amended_witness :
    "connection" ∈ hopByHopHeaders ∧
    ("connection", "close") ∉
      buildForwardHeaders [("Connection", "close")] none "req-1" "1.2.3.4" :=
  ⟨by decide,
    (c5_amended_forward_strips_response_verbatim [("Connection", "close")] none "req-1"
      "1.2.3.4" "connection" "close" { statusCode := 200, headers := [] }).1 (by decide)⟩

/-- C7 (amended): optional auth resolution never surfaces an auth error —
a missing credential and every `HTTPException` raised by required
resolution become the no-principal outcome — but a session-store failure
escaping `get_current_user` is not caught and propagates. -/
theorem c7_amended_swallows_auth_errors (bl : Store)
    (sessions : String → Except Unit (Option SessionData))
    (cred : Option Token) (now : Int) :
    (∀ f, get_optional_user bl sessions cred now ≠
      Except.error (GatewayError.http f)) ∧
    (∀ t f, cred = some t →
      get_current_user bl sessions t now = Except.error (GatewayError.http f) →
      get_optional_user bl sessions cred now = Except.ok none) ∧
    (cred = none → get_optional_user bl sessions cred now = Except.ok none) := by
  refine ⟨?_, ?_, ?_⟩
  · intro f
    cases cred with
    | none => simp [get_optional_user]
    | some t =>
      cases h : get_current_user bl sessions t now with
      | ok u => simp [get_optional_user, h]
      | error e => cases e <;> simp [get_optional_user, h]
  · intro t f hc h
    subst hc
    simp [get_optional_user, h]
  · intro hc
    subst hc
    rfl

/-- C7 amended witness: the expired fixture token resolves to a 401, which
optional resolution swallows into the no-principal outcome. -/
theorem c7_amended_witness :
    get_current_user [] noSessions fixtureExpiredToken 50 =
      Except.error (GatewayError.http AuthFailure.expired) ∧
    get_optional_user [] noSessions (some fixtureExpiredToken) 50 = Except.ok none :=
  ⟨rfl,
    (c7_amended_swallows_auth_errors [] noSessions (some fixtureExpiredToken) 50).2.1
      fixtureExpiredToken AuthFailure.expired rfl rfl⟩

/-- C9 (amended): only the success relay carries the correlation id and API
version as response headers.  On an admitted request whose inner call
succeeds, the middleware adds `X-Request-ID` and `X-API-Version`; on an
admitted request whose inner call raises, the 500 fallback has an empty
header set and the correlation id only in its body; on a rate-limit
rejection, the 429 response's headers are the two rate-limit headers and
the correlation id is only in its body. -/
theorem c9_amended_headers_by_outcome (store : Option (List Int)) (requestId : String)
    (now : Int) (r : GatewayResponse) :
    (∀ st, check_rate_limit store 100 60 now = Except.ok (true, st) →
      request_middleware store requestId now (NextOutcome.success r) =
        Except.ok (addTrackingHeaders requestId r) ∧
      ("X-Request-ID", requestId) ∈ (addTrackingHeaders requestId r).headers ∧
      ("X-API-Version", apiVersion) ∈ (addTrackingHeaders requestId r).headers) ∧
    (∀ st, check_rate_limit store 100 60 now = Except.ok (true, st) →
      request_middleware store requestId now NextOutcome.raised =
        Except.ok { statusCode := 500, headers := [], bodyRequestId := some requestId }) ∧
    (∀ cleaned next, check_rate_limit store 100 60 now = Except.ok (false, cleaned) →
      ∃ resp, request_middleware store requestId now next = Except.ok resp ∧
        resp.bodyRequestId = some requestId ∧
        resp.headers.all (fun p => p.1 != "X-Request-ID" && p.1 != "X-API-Version") = true) := by
  refine ⟨?_, ?_, ?_⟩
  · intro st h
    refine ⟨by simp [request_middleware, h], ?_,
      mem_setHeader_self _ _ _⟩
    exact mem_setHeader_of_ne _ _ _ _ _ (by decide) (mem_setHeader_self _ _ _)
  · intro st h
    simp [request_middleware, h]
  · intro cleaned next h
    refine ⟨rateLimitRejectionResponse requestId
      (get_rate_limit_info cleaned 100 60 now).1 (get_rate_limit_info cleaned 100 60 now).2,
      by simp [request_middleware, h], rfl, rfl⟩

/-- C9 amended witness: on a fresh key at second 1000, the admitted inner
200 response is relayed with both headers present. -/
theorem c9_amended_witness :
    check_rate_limit (some []) 100 60 1000 = Except.ok (true, [1000]) ∧
    request_middleware (some []) "req-1" 1000 (NextOutcome.success fixtureInnerResponse) =
      Except.ok (addTrackingHeaders "req-1" fixtureInnerResponse) ∧
    ("X-Request-ID", "req-1") ∈ (addTrackingHeaders "req-1" fixtureInnerResponse).headers :=
  ⟨rfl,
    ((c9_amended_headers_by_outcome (some []) "req-1" 1000 fixtureInnerResponse).1
      [1000] rfl).1,
    (((c9_amended_headers_by_outcome (some []) "req-1" 1000 fixtureInnerResponse).1
      [1000] rfl).2).1⟩

/-- C3: at the granularity the claim states — every rejection is
`Unauthorized` — required auth resolution performs exactly the spec's §4.4
cascade: revocation record, then signature/expiry, then `kind = access`,
then presence of `subject_id`/`email`/`role`, then the static role table
with unknown roles yielding the empty permission set, then the session
binding only when a `session_id` is carried.  Stated for payloads whose
string claims are not the empty string (the code uses Python truthiness,
for which an empty claim and an absent one coincide) and for a reachable
session store. -/
theorem c3_resolver_matches_spec_order (bl : Store)
    (sessionsPure : String → Option SessionData) (t : Token) (now : Int)
    (hsub : t.payload.sub ≠ some "") (hemail : t.payload.email ≠ some "")
    (hrole : t.payload.role ≠ some "") (hsid : t.payload.sessionId ≠ some "") :
    authOutcome (get_current_user bl (fun s => Except.ok (sessionsPure s)) t now) =
      resolve_required_spec bl sessionsPure t now := by
  cases hsigv : t.sigValid with
  | false =>
    have hbl : is_token_blacklisted bl t now = true := by
      simp [is_token_blacklisted, decodeToken, hsigv]
    simp only [get_current_user, hbl, if_true, resolve_required_spec, decodeToken, hsigv,
      Bool.not_false, if_false, authOutcome, Except.mapError]
    split <;> rfl
  | true =>
    have hdecF : decodeToken false now t = Except.ok t.payload := by
      simp [decodeToken, hsigv]
    have hbl : is_token_blacklisted bl t now =
        storeLive bl ("blacklist:" ++ tokenJtiKey t) now := by
      simp [is_token_blacklisted, hdecF]
    by_cases hlive : storeLive bl ("blacklist:" ++ tokenJtiKey t) now
    · simp [get_current_user, hbl, hlive, authOutcome, Except.mapError, resolve_required_spec]
    · have hdecSplit : decodeToken true now t = Except.error JwtError.expired ∨
          decodeToken true now t = Except.ok t.payload := by
        rcases hexp : t.payload.exp with _ | e
        · exact Or.inr (by simp [decodeToken, hsigv, hexp])
        · by_cases hle : e ≤ now
          · exact Or.inl (by simp [decodeToken, hsigv, hexp, hle])
          · exact Or.inr (by simp [decodeToken, hsigv, hexp, hle])
      rcases hdecSplit with hdec | hdec
      · simp [get_current_user, hbl, hlive, hdec, authOutcome, Except.mapError, resolve_required_spec]
      · by_cases htyp : t.payload.typ = some "access"
        case neg =>
          simp [get_current_user, hbl, hlive, hdec, htyp, authOutcome, Except.mapError, resolve_required_spec,
            bne_iff_ne]
        case pos =>
          rcases hs : t.payload.sub with _ | s
          · simp [get_current_user, hbl, hlive, hdec, htyp, hs, falsyStr, authOutcome, Except.mapError,
              resolve_required_spec]
          · have hs' : ¬(s = "") := by
              intro h
              exact hsub (by rw [hs, h])
            rcases hem : t.payload.email with _ | em
            · simp [get_current_user, hbl, hlive, hdec, htyp, hs, hem, hs', falsyStr,
                authOutcome, Except.mapError, resolve_required_spec]
            · have hem' : ¬(em = "") := by
                intro h
                exact hemail (by rw [hem, h])
              rcases hrl : t.payload.role with _ | rl
              · simp [get_current_user, hbl, hlive, hdec, htyp, hs, hem, hrl, hs', hem',
                  falsyStr, authOutcome, Except.mapError, resolve_required_spec]
              · have hrl' : ¬(rl = "") := by
                  intro h
                  exact hrole (by rw [hrl, h])
                rcases hss : t.payload.sessionId with _ | sid
                · simp [get_current_user, hbl, hlive, hdec, htyp, hs, hem, hrl, hss, hs',
                    hem', hrl', falsyStr, authOutcome, Except.mapError, resolve_required_spec]
                · have hss' : ¬(sid = "") := by
                    intro h
                    exact hsid (by rw [hss, h])
                  cases hlook : sessionsPure sid with
                  | none =>
                    simp [get_current_user, hbl, hlive, hdec, htyp, hs, hem, hrl, hss,
                      hs', hem', hrl', hss', falsyStr, authOutcome, Except.mapError, resolve_required_spec,
                      hlook]
                  | some d =>
                    by_cases huid : d.userId = some s
                    · simp [get_current_user, hbl, hlive, hdec, htyp, hs, hem, hrl, hss,
                        hs', hem', hrl', hss', falsyStr, authOutcome, Except.mapError, resolve_required_spec,
                        hlook, huid]
                    · simp [get_current_user, hbl, hlive, hdec, htyp, hs, hem, hrl, hss,
                        hs', hem', hrl', hss', falsyStr, authOutcome, Except.mapError, resolve_required_spec,
                        hlook, huid, bne_iff_ne]

/-- C3 witness: a viewer token without a session binding resolves
identically under the code cascade and the spec cascade. -/
theorem c3_resolver_matches_spec_order_witness :
    (fixtureToken.payload.sub ≠ some "" ∧ fixtureToken.payload.sessionId ≠ some "") ∧
    authOutcome (get_current_user [] (fun s => Except.ok ((fun _ => none) s)) fixtureToken 50) =
      resolve_required_spec [] (fun _ => none) fixtureToken 50 :=
  ⟨⟨by decide, by decide⟩,
    c3_resolver_matches_spec_order [] (fun _ => none) fixtureToken 50
      (by decide) (by decide) (by decide) (by decide)⟩

end ReTurni
